import Mathlib

/-!
Shallow embedding of the RmlUi render-state stack manager
(Source/Core/RenderState.cpp).

RenderState caches scissor, clip-mask and transform state on a stack of
State snapshots (top of stack = active state) and forwards only actual
changes to the rendering backend.  We model each mutator as a pure
function from the current state to the new state paired with the ordered
list of backend calls it issues.  Pointers to matrices are modelled as
identity tokens dereferenced through a heap in an environment; floats
and opaque geometry inputs (boxes, border radii, offsets) are modelled
as opaque tokens, since only their identity flows through this core.
-/

namespace RmlUi

/-- Identity of an Element (the core only compares and dereferences
element pointers, so a token suffices). -/
abbrev Element := Nat

/-- Identity token of a transform matrix pointer. -/
abbrev Ptr := Nat

/-- 4x4 transform matrix.  The core only stores and value-compares
matrices, so entries are modelled as integers (floats are out of scope
for the embedding). -/
abbrev Matrix4f := Fin 4 → Fin 4 → Int

def Matrix4f.identity : Matrix4f := fun i j => if i = j then 1 else 0

structure Vector2i where
  x : Int
  y : Int
deriving DecidableEq

/-- Modelled from the spec: the clip-area enum carried by ElementClip
(Box::Area; declared in a header that is not part of the given source). -/
inductive Area
  | Margin
  | Border
  | Padding
  | Content
deriving DecidableEq

/-- Modelled from the spec: the clip-mask write mode a geometry is tagged
with; Clip starts a new mask, ClipIntersect intersects with the existing
mask (declared in RenderInterface.h, not part of the given source). -/
inductive ClipMask
  | Clip
  | ClipIntersect
deriving DecidableEq

/-- Modelled from the spec: one element of the clip chain, an element
reference plus the clip area recorded for it; equality is element
identity plus clip area (declared in a header not in the given source). -/
structure ElementClip where
  element : Element
  clip_area : Area
deriving DecidableEq

abbrev ElementClipList := List ElementClip

/-- Modelled from the spec: the per-element data this core probes
(box geometry, border radius, optional resolved transform, absolute
border-box offset); boxes, radii and offsets are opaque tokens since the
core only passes them through to the geometry generator / backend. -/
structure ElementData where
  box : Nat
  border_radius : Nat
  transform_ptr : Option Ptr
  absolute_offset_border : Nat

/-- The environment a render pass runs in: element data, the heap
dereferencing transform-pointer tokens, and the backend's clip-mask
capability flag (the value EnableClipMask returns). -/
structure Env where
  elements : Element → ElementData
  heap : Ptr → Matrix4f
  clip_mask_capability : Bool

/-- One backend (RenderInterface) call, in program order.  Geometry
submitted for clip masking is identified by the element and clip area it
was generated from, its mask write mode, and the offset it is rendered
at. -/
inductive BackendCall
  | enableScissorRegion (enable : Bool)
  | setScissorRegion (x y width height : Int)
  | enableClipMask (enable : Bool)
  | setTransform (p : Option Ptr)
  | renderClipGeometry (mask : ClipMask) (element : Element) (clip_area : Area) (offset : Nat)
deriving DecidableEq

/-- Modelled from the spec: the State snapshot (declared in
RenderState.h, not part of the given source).  scissor_dimensions.x < 0
encodes "scissor disabled"; the default State has the scissor disabled,
an empty clip chain and a null transform pointer. -/
structure State where
  scissor_origin : Vector2i := ⟨0, 0⟩
  scissor_dimensions : Vector2i := ⟨-1, -1⟩
  clip_stencil_elements : ElementClipList := []
  transform : Matrix4f := Matrix4f.identity
  transform_pointer : Option Ptr := none
deriving DecidableEq

/-- RenderState::DisableScissorRegion acting on the top State. -/
def State.disableScissorRegion (state : State) : State × List BackendCall :=
  if 0 ≤ state.scissor_dimensions.x then
    ({ state with scissor_dimensions := ⟨-1, -1⟩ }, [BackendCall.enableScissorRegion false])
  else
    (state, [])

/-- RenderState::EnableScissorRegion acting on the top State.  The
source asserts dimensions are non-negative (caller contract) and
proceeds unconditionally. -/
def State.enableScissorRegion (origin dimensions : Vector2i) (state : State) :
    State × List BackendCall :=
  let scissor_enabled : Bool := decide (0 ≤ state.scissor_dimensions.x)
  let ev1 : List BackendCall :=
    if scissor_enabled then [] else [BackendCall.enableScissorRegion true]
  if ¬scissor_enabled ∨ state.scissor_origin ≠ origin ∨ state.scissor_dimensions ≠ dimensions then
    ({ state with scissor_origin := origin, scissor_dimensions := dimensions },
      ev1 ++ [BackendCall.setScissorRegion origin.x origin.y dimensions.x dimensions.y])
  else
    (state, ev1)

/-- The slow-path comparison in RenderState::SetTransform: true when the
old pointer is null, the new pointer is null, or the cached matrix value
differs from the dereferenced new matrix. -/
def transformsDiffer (env : Env) (p_active : Option Ptr) (active : Matrix4f)
    (p_new : Option Ptr) : Bool :=
  match p_active, p_new with
  | none, _ => true
  | _, none => true
  | some _, some p => decide (active ≠ env.heap p)

/-- RenderState::SetTransform acting on the top State. -/
def State.setTransform (env : Env) (p_new_transform : Option Ptr) (state : State) :
    State × List BackendCall :=
  if state.transform_pointer = p_new_transform then
    (state, [])
  else if transformsDiffer env state.transform_pointer state.transform p_new_transform then
    ({ state with
        transform := match p_new_transform with
          | some p => env.heap p
          | none => state.transform,
        transform_pointer := p_new_transform },
      [BackendCall.setTransform p_new_transform])
  else
    ({ state with transform_pointer := p_new_transform }, [])

/-- RenderState::ApplyTransform: resolve an optional element's own
transform pointer and forward it through SetTransform. -/
def State.applyTransform (env : Env) (element : Option Element) (state : State) :
    State × List BackendCall :=
  let new_transform : Option Ptr :=
    match element with
    | some e => (env.elements e).transform_ptr
    | none => none
  state.setTransform env new_transform

/-- RenderState::GetScissorState.  The two trailing arguments are the
incoming values of the C++ output parameters, so returning them encodes
"output parameters left unmodified". -/
def State.getScissorState (state : State) (out_scissor_origin out_scissor_dimensions : Vector2i) :
    Bool × Vector2i × Vector2i :=
  if ¬0 ≤ state.scissor_dimensions.x then
    (false, out_scissor_origin, out_scissor_dimensions)
  else
    (true, state.scissor_origin, state.scissor_dimensions)

/-- The loop body of RenderState::ApplyClipMask: for each chain element,
apply its own transform, then submit the geometry generated for its box
and clip area, tagged Clip for the first element and ClipIntersect
afterwards, at the element's absolute border-box offset. -/
def applyClipElements (env : Env) : Bool → ElementClipList → State → State × List BackendCall
  | _, [], state => (state, [])
  | first_clip_mask, element_clip :: rest, state =>
    let clip_element := element_clip.element
    let r1 := state.applyTransform env (some clip_element)
    let clip_mask := if first_clip_mask then ClipMask.Clip else ClipMask.ClipIntersect
    let submit := BackendCall.renderClipGeometry clip_mask clip_element element_clip.clip_area
      (env.elements clip_element).absolute_offset_border
    let r2 := applyClipElements env false rest r1.1
    (r2.1, r1.2 ++ (submit :: r2.2))

/-- RenderState::ApplyClipMask: unconditionally tell the backend whether
the clip mask is enabled (its returned capability flag is discarded
here); for a non-empty chain, snapshot the active transform pointer, run
the per-element loop, and restore the snapshot via SetTransform. -/
def applyClipMask (env : Env) (clip_elements : ElementClipList) (state : State) :
    State × List BackendCall :=
  let clip_mask_enabled : Bool := !clip_elements.isEmpty
  if clip_mask_enabled then
    let initial_transform := state.transform_pointer
    let r1 := applyClipElements env true clip_elements state
    let r2 := r1.1.setTransform env initial_transform
    (r2.1, BackendCall.enableClipMask clip_mask_enabled :: (r1.2 ++ r2.2))
  else
    (state, [BackendCall.enableClipMask clip_mask_enabled])

/-- RenderState::SetClipMask acting on the top State: store and apply
the chain only when it differs by value from the cached one. -/
def State.setClipMask (env : Env) (in_clip_elements : ElementClipList) (state : State) :
    State × List BackendCall :=
  if state.clip_stencil_elements ≠ in_clip_elements then
    applyClipMask env in_clip_elements { state with clip_stencil_elements := in_clip_elements }
  else
    (state, [])

/-- RenderState::Set acting on the top State: scissor, then clip mask,
then transform, in that fixed order. -/
def State.set (env : Env) (state : State) (next : State) : State × List BackendCall :=
  let r1 :=
    if 0 ≤ next.scissor_dimensions.x then
      state.enableScissorRegion next.scissor_origin next.scissor_dimensions
    else
      state.disableScissorRegion
  let r2 := r1.1.setClipMask env next.clip_stencil_elements
  let r3 := r2.1.setTransform env next.transform_pointer
  (r3.1, r1.2 ++ (r2.2 ++ r3.2))

/-- The RenderState object: the stack of State snapshots (top = active,
held separately so the stack is never empty, as the source maintains)
plus the capability flag stored by BeginRender. -/
structure RenderState where
  top : State
  rest : List State
  supports_stencil : Bool
deriving DecidableEq

/-- The constructor: a stack holding exactly one default State. -/
def RenderState.init : RenderState := ⟨{}, [], false⟩

/-- Stack depth (the C++ stack.size()). -/
def RenderState.depth (rs : RenderState) : Nat := rs.rest.length + 1

/-- Lift a top-of-stack operation to the whole RenderState. -/
def RenderState.onTop (rs : RenderState) (op : State → State × List BackendCall) :
    RenderState × List BackendCall :=
  ({ rs with top := (op rs.top).1 }, (op rs.top).2)

/-- RenderState::BeginRender: reset the backend scissor, probe the
clip-mask capability (storing the returned flag) while disabling the
mask, reset the backend transform, and replace the top State with a
fresh default.  The stack-depth precondition is a debug assertion; the
body runs regardless. -/
def RenderState.beginRender (env : Env) (rs : RenderState) : RenderState × List BackendCall :=
  (⟨{}, rs.rest, env.clip_mask_capability⟩,
    [BackendCall.enableScissorRegion false, BackendCall.enableClipMask false,
      BackendCall.setTransform none])

/-- RenderState::Reset. -/
def RenderState.reset (env : Env) (rs : RenderState) : RenderState × List BackendCall :=
  rs.onTop (fun state => state.set env {})

/-- RenderState::Push: duplicate the top State; no backend calls. -/
def RenderState.push (rs : RenderState) : RenderState × List BackendCall :=
  (⟨rs.top, rs.top :: rs.rest, rs.supports_stencil⟩, [])

/-- RenderState::Pop.  With at least two entries, re-synchronize the
backend to the State below the top via Set (which mutates only the top,
about to be discarded) and remove the top; otherwise raise the
unbalanced-state error (the trailing Bool) and change nothing. -/
def RenderState.pop (env : Env) (rs : RenderState) : RenderState × List BackendCall × Bool :=
  match rs.rest with
  | next :: rest2 =>
    (⟨next, rest2, rs.supports_stencil⟩, (rs.top.set env next).2, false)
  | [] => (rs, [], true)

/-- RenderState-level DisableScissorRegion. -/
def RenderState.disableScissorRegion (rs : RenderState) : RenderState × List BackendCall :=
  rs.onTop State.disableScissorRegion

/-- RenderState-level EnableScissorRegion. -/
def RenderState.enableScissorRegion (origin dimensions : Vector2i) (rs : RenderState) :
    RenderState × List BackendCall :=
  rs.onTop (State.enableScissorRegion origin dimensions)

/-- RenderState-level SetClipMask. -/
def RenderState.setClipMask (env : Env) (in_clip_elements : ElementClipList) (rs : RenderState) :
    RenderState × List BackendCall :=
  rs.onTop (State.setClipMask env in_clip_elements)

/-- RenderState-level SetTransform. -/
def RenderState.setTransform (env : Env) (p_new_transform : Option Ptr) (rs : RenderState) :
    RenderState × List BackendCall :=
  rs.onTop (State.setTransform env p_new_transform)

/-- RenderState-level GetScissorState. -/
def RenderState.getScissorState (rs : RenderState)
    (out_scissor_origin out_scissor_dimensions : Vector2i) : Bool × Vector2i × Vector2i :=
  rs.top.getScissorState out_scissor_origin out_scissor_dimensions

/-- N Push calls in a row. -/
def pushN : Nat → RenderState → RenderState
  | 0, rs => rs
  | n + 1, rs => pushN n rs.push.1

/-- N Pop calls in a row (final state only). -/
def popN (env : Env) : Nat → RenderState → RenderState
  | 0, rs => rs
  | n + 1, rs => popN env n (rs.pop env).1

/-- Project the clip-geometry submissions out of a backend trace. -/
def getSubmit : BackendCall → Option (ClipMask × Element × Area)
  | BackendCall.renderClipGeometry mask element area _ => some (mask, element, area)
  | _ => none

/-- Recognize backend SetScissorRegion calls in a trace. -/
def isSetScissorRegion : BackendCall → Bool
  | BackendCall.setScissorRegion _ _ _ _ => true
  | _ => false

/-- A concrete environment used to evaluate witnesses: every element has
its own transform (token 7), the heap maps every token to the identity
matrix, and the backend reports clip-mask support. -/
def envW : Env where
  elements := fun _ =>
    { box := 0, border_radius := 0, transform_ptr := some 7, absolute_offset_border := 0 }
  heap := fun _ => Matrix4f.identity
  clip_mask_capability := true

/-! ### Helper lemmas about SetTransform -/

theorem State.setTransform_fst_transform_pointer (env : Env) (p : Option Ptr) (s : State) :
    (s.setTransform env p).1.transform_pointer = p := by
  unfold State.setTransform
  split
  · next h => exact h
  · split <;> rfl

theorem State.setTransform_fst_scissor_origin (env : Env) (p : Option Ptr) (s : State) :
    (s.setTransform env p).1.scissor_origin = s.scissor_origin := by
  unfold State.setTransform
  split
  · rfl
  · split <;> rfl

theorem State.setTransform_fst_scissor_dimensions (env : Env) (p : Option Ptr) (s : State) :
    (s.setTransform env p).1.scissor_dimensions = s.scissor_dimensions := by
  unfold State.setTransform
  split
  · rfl
  · split <;> rfl

theorem State.setTransform_fst_clip (env : Env) (p : Option Ptr) (s : State) :
    (s.setTransform env p).1.clip_stencil_elements = s.clip_stencil_elements := by
  unfold State.setTransform
  split
  · rfl
  · split <;> rfl

theorem State.setTransform_snd (env : Env) (p : Option Ptr) (s : State) :
    (s.setTransform env p).2 = [] ∨ (s.setTransform env p).2 = [BackendCall.setTransform p] := by
  unfold State.setTransform
  split
  · exact Or.inl rfl
  · split
    · exact Or.inr rfl
    · exact Or.inl rfl

theorem transformsDiffer_eq_true_iff (env : Env) (p_active : Option Ptr) (active : Matrix4f)
    (p_new : Option Ptr) :
    transformsDiffer env p_active active p_new = true ↔
      (p_active = none ∨ p_new = none ∨ Option.map env.heap p_new ≠ some active) := by
  cases p_active with
  | none => simp [transformsDiffer]
  | some q =>
    cases p_new with
    | none => simp [transformsDiffer]
    | some p =>
      simp only [transformsDiffer, decide_eq_true_eq, Option.map_some]
      constructor
      · intro h
        exact Or.inr (Or.inr (by simpa [eq_comm] using h))
      · intro h
        rcases h with h | h | h
        · exact absurd h (by simp)
        · exact absurd h (by simp)
        · intro hc
          exact h (by simp [hc])

theorem State.setTransform_snd_ne_nil_iff (env : Env) (p : Option Ptr) (s : State) :
    (s.setTransform env p).2 ≠ [] ↔
      (s.transform_pointer ≠ p ∧
        transformsDiffer env s.transform_pointer s.transform p = true) := by
  unfold State.setTransform
  split
  · next h => simp [h]
  · next h =>
    split
    · next hd => simp [h, hd]
    · next hd => simp [h, hd]

/-! ### Claim theorems: transforms and scissor accessors -/

/-- C3: the backend SetTransform is invoked exactly when the new identity
token differs from the cached one and additionally the cached token is
null, the new token is null, or the dereferenced new matrix differs from
the cached matrix value; in particular a null transform after a cached
non-null one always issues the call, and a different non-null token whose
matrix equals the cached value issues none. -/
theorem c3_set_transform_backend_iff (env : Env) (s : State) :
    (∀ p_new : Option Ptr,
      (s.setTransform env p_new).2 ≠ [] ↔
        (s.transform_pointer ≠ p_new ∧
          (s.transform_pointer = none ∨ p_new = none ∨
            Option.map env.heap p_new ≠ some s.transform))) ∧
    (∀ q : Ptr, s.transform_pointer = some q →
      (s.setTransform env none).2 = [BackendCall.setTransform none]) ∧
    (∀ p q : Ptr, s.transform_pointer = some q → p ≠ q → env.heap p = s.transform →
      (s.setTransform env (some p)).2 = []) := by
  refine ⟨?_, ?_, ?_⟩
  · intro p_new
    rw [State.setTransform_snd_ne_nil_iff, transformsDiffer_eq_true_iff]
  · intro q hq
    unfold State.setTransform
    rw [hq]
    simp [transformsDiffer]
  · intro p q hq hpq hval
    unfold State.setTransform
    rw [hq]
    simp [transformsDiffer, hval, Ne.symm hpq]

/-- C3 witness: with the cached transform set to token 7 and its matrix
value, passing a null transform issues the backend call, and passing the
distinct token 3 (whose matrix is value-equal) issues none. -/
theorem c3_witness :
    (({ transform := Matrix4f.identity, transform_pointer := some 7 } : State).setTransform envW
        none).2 = [BackendCall.setTransform none] ∧
    (({ transform := Matrix4f.identity, transform_pointer := some 7 } : State).setTransform envW
        (some 3)).2 = [] :=
  ⟨(c3_set_transform_backend_iff envW _).2.1 7 rfl,
    (c3_set_transform_backend_iff envW _).2.2 3 7 rfl (by decide) rfl⟩

/-- C9: GetScissorState returns false and leaves both output parameters
unmodified when the cached scissor dimensions x-component is negative,
and writes the cached origin and dimensions to the outputs (returning
true) only when the scissor is enabled. -/
theorem c9_get_scissor_state (s : State) (o d : Vector2i) :
    s.getScissorState o d =
      if 0 ≤ s.scissor_dimensions.x then (true, s.scissor_origin, s.scissor_dimensions)
      else (false, o, d) := by
  unfold State.getScissorState
  by_cases h : 0 ≤ s.scissor_dimensions.x <;> simp [h]

theorem applyClipMask_fst_transform_pointer (env : Env) (chain : ElementClipList) (s : State) :
    (applyClipMask env chain s).1.transform_pointer = s.transform_pointer := by
  unfold applyClipMask
  cases chain with
  | nil => rfl
  | cons c cs =>
    simp only [List.isEmpty_cons, Bool.not_false, if_true]
    exact State.setTransform_fst_transform_pointer env s.transform_pointer _

/-- C4: SetClipMask on a non-empty chain restores the transform pointer
token snapshotted before the per-element loop, so the top State's active
transform after the call equals the one active before it. -/
theorem c4_clip_mask_restores_transform (env : Env) (chain : ElementClipList) (s : State)
    (h : chain ≠ []) :
    (s.setClipMask env chain).1.transform_pointer = s.transform_pointer := by
  unfold State.setClipMask
  split
  · exact applyClipMask_fst_transform_pointer env chain _
  · rfl

/-- C4 witness: from the default State (null transform), setting a
one-element clip chain whose element carries its own transform leaves the
top State's transform pointer null. -/
theorem c4_witness :
    (State.setClipMask envW [⟨0, Area.Border⟩] {}).1.transform_pointer
      = ({} : State).transform_pointer :=
  c4_clip_mask_restores_transform envW [⟨0, Area.Border⟩] {} (by simp)

/-! ### Claim theorems: the stack -/

theorem pushN_eq (n : Nat) (rs : RenderState) :
    pushN n rs = ⟨rs.top, List.replicate n rs.top ++ rs.rest, rs.supports_stencil⟩ := by
  induction n generalizing rs with
  | zero => rfl
  | succ n ih =>
    rw [pushN, ih]
    simp [RenderState.push, List.replicate_succ']

theorem popN_succ (env : Env) (n : Nat) (rs : RenderState) :
    popN env (n + 1) rs = popN env n (rs.pop env).1 := rfl

theorem popN_replicate (env : Env) (t : State) (r : List State) (b : Bool) :
    ∀ (n : Nat) (x : State),
      popN env (n + 1) ⟨x, List.replicate (n + 1) t ++ r, b⟩ = ⟨t, r, b⟩ := by
  intro n
  induction n with
  | zero => intro x; rfl
  | succ m ih =>
    intro x
    rw [popN_succ]
    exact ih t

/-- C1: for every initial RenderState, any sequence of N Push calls
followed by N Pop calls (N at least 1) returns the stack to its initial
depth with the initial top State on top: each Pop re-synchronizes the
backend to the untouched State below the top and removes the top. -/
theorem c1_push_pop_balance (env : Env) (n : Nat) (rs : RenderState) (h : 1 ≤ n) :
    (popN env n (pushN n rs)).depth = rs.depth ∧ (popN env n (pushN n rs)).top = rs.top := by
  rw [pushN_eq]
  cases n with
  | zero => omega
  | succ m =>
    rw [popN_replicate]
    exact ⟨rfl, rfl⟩

/-- C1 witness: two pushes followed by two pops on the freshly
constructed RenderState restore depth 1 and the default top State. -/
theorem c1_witness :
    1 ≤ 2 ∧
      ((popN envW 2 (pushN 2 RenderState.init)).depth = RenderState.init.depth ∧
        (popN envW 2 (pushN 2 RenderState.init)).top = RenderState.init.top) :=
  ⟨by decide, c1_push_pop_balance envW 2 RenderState.init (by decide)⟩

/-- C5: Pop on a stack of depth 1 raises the unbalanced-state error,
issues no backend calls and leaves the RenderState unchanged; the depth
can therefore never drop below 1. -/
theorem c5_pop_underflow (env : Env) (rs : RenderState) (h : rs.depth = 1) :
    rs.pop env = (rs, [], true) ∧ ∀ rs2 : RenderState, 1 ≤ rs2.depth := by
  refine ⟨?_, fun rs2 => Nat.le_add_left 1 rs2.rest.length⟩
  have hrest : rs.rest = [] := by
    unfold RenderState.depth at h
    exact List.length_eq_zero.mp (by omega)
  unfold RenderState.pop
  rw [hrest]

/-- C5 witness: popping the freshly constructed RenderState (depth 1)
reports the error and changes nothing. -/
theorem c5_witness :
    RenderState.init.depth = 1 ∧
      (RenderState.init.pop envW = (RenderState.init, [], true) ∧
        ∀ rs2 : RenderState, 1 ≤ rs2.depth) :=
  ⟨rfl, c5_pop_underflow envW RenderState.init rfl⟩

/-! ### Claim theorems: clip-mask application -/

theorem State.setTransform_snd_filterMap (env : Env) (p : Option Ptr) (s : State) :
    ((s.setTransform env p).2).filterMap getSubmit = [] := by
  rcases State.setTransform_snd env p s with h | h <;> rw [h] <;> rfl

theorem applyClipElements_submits_false (env : Env) (chain : ElementClipList) :
    ∀ s : State,
      ((applyClipElements env false chain s).2).filterMap getSubmit =
        chain.map fun ec => (ClipMask.ClipIntersect, ec.element, ec.clip_area) := by
  induction chain with
  | nil => intro s; rfl
  | cons c cs ih =>
    intro s
    simp only [applyClipElements, List.filterMap_append, List.map_cons, State.applyTransform,
      State.setTransform_snd_filterMap, List.nil_append, List.filterMap_cons]
    simp [getSubmit, ih]

theorem applyClipElements_submits_true (env : Env) (c : ElementClip) (cs : ElementClipList)
    (s : State) :
    ((applyClipElements env true (c :: cs) s).2).filterMap getSubmit =
      (ClipMask.Clip, c.element, c.clip_area)
        :: cs.map fun ec => (ClipMask.ClipIntersect, ec.element, ec.clip_area) := by
  simp only [applyClipElements, List.filterMap_append, State.applyTransform,
    State.setTransform_snd_filterMap, List.nil_append, List.filterMap_cons]
  simp [getSubmit, applyClipElements_submits_false]

/-- C2: on a non-empty chain the clip-mask application algorithm first
enables the clip mask and submits exactly one geometry per chain element
in chain order, the first tagged Clip and every later one tagged
ClipIntersect; on an empty chain it only disables the clip mask and
submits no geometry. -/
theorem c2_apply_clip_mask (env : Env) (s : State) :
    (applyClipMask env [] s = (s, [BackendCall.enableClipMask false])) ∧
    (∀ (c : ElementClip) (cs : ElementClipList),
      ((applyClipMask env (c :: cs) s).2).head? = some (BackendCall.enableClipMask true) ∧
      ((applyClipMask env (c :: cs) s).2).filterMap getSubmit =
        (ClipMask.Clip, c.element, c.clip_area)
          :: cs.map fun ec => (ClipMask.ClipIntersect, ec.element, ec.clip_area)) := by
  refine ⟨rfl, fun c cs => ⟨?_, ?_⟩⟩
  · simp [applyClipMask]
  · simp only [applyClipMask, List.isEmpty_cons, Bool.not_false, if_true, List.filterMap_cons,
      List.filterMap_append, State.setTransform_snd_filterMap, List.append_nil]
    simp [getSubmit, applyClipElements_submits_true]

theorem applyClipMask_snd_ne_nil (env : Env) (chain : ElementClipList) (s : State) :
    (applyClipMask env chain s).2 ≠ [] := by
  cases chain <;> simp [applyClipMask]

/-- C7: SetClipMask with a chain equal by value to the cached one makes
no backend calls and leaves the top State unchanged; the backend trace is
non-empty exactly when the new chain differs from the cached one. -/
theorem c7_set_clip_mask_change_detect (env : Env) (chain : ElementClipList) (s : State) :
    (s.clip_stencil_elements = chain → s.setClipMask env chain = (s, [])) ∧
    ((s.setClipMask env chain).2 ≠ [] ↔ s.clip_stencil_elements ≠ chain) := by
  unfold State.setClipMask
  by_cases h : s.clip_stencil_elements = chain
  · simp [h]
  · simp [h, applyClipMask_snd_ne_nil]

/-- C7 witness: re-setting the already cached one-element chain performs
no backend calls and leaves the State unchanged. -/
theorem c7_witness :
    ({ clip_stencil_elements := [⟨0, Area.Border⟩] } : State).setClipMask envW [⟨0, Area.Border⟩]
      = (({ clip_stencil_elements := [⟨0, Area.Border⟩] } : State), []) :=
  (c7_set_clip_mask_change_detect envW [⟨0, Area.Border⟩]
    { clip_stencil_elements := [⟨0, Area.Border⟩] }).1 rfl

/-! ### Claim theorems: scissor idempotence -/

theorem State.enableScissorRegion_fst (origin dimensions : Vector2i) (s : State) :
    (s.enableScissorRegion origin dimensions).1 =
      { s with scissor_origin := origin, scissor_dimensions := dimensions } := by
  simp only [State.enableScissorRegion]
  split
  · rfl
  · next hcond =>
    push_neg at hcond
    obtain ⟨-, h1, h2⟩ := hcond
    rw [← h1, ← h2]

theorem State.enableScissorRegion_snd_countP (origin dimensions : Vector2i) (s : State) :
    List.countP isSetScissorRegion (s.enableScissorRegion origin dimensions).2 =
      if 0 ≤ s.scissor_dimensions.x ∧ s.scissor_origin = origin ∧
          s.scissor_dimensions = dimensions then 0 else 1 := by
  simp only [State.enableScissorRegion]
  by_cases he : 0 ≤ s.scissor_dimensions.x
  · by_cases h1 : s.scissor_origin = origin
    · by_cases h2 : s.scissor_dimensions = dimensions
      · have he2 : 0 ≤ dimensions.x := h2 ▸ he
        simp [he, h1, h2, he2]
      · simp [he, h1, h2, isSetScissorRegion]
    · simp [he, h1, isSetScissorRegion]
  · simp [he, isSetScissorRegion]

/-- C6 counterexample: starting from a State whose cached scissor is
already enabled with origin (0,0) and dimensions (10,10), calling
EnableScissorRegion((0,0),(10,10)) twice issues zero backend
SetScissorRegion calls, not exactly one. -/
theorem c6_counterexample :
    ¬(List.countP isSetScissorRegion
        ((State.enableScissorRegion ⟨0, 0⟩ ⟨10, 10⟩
            { scissor_origin := ⟨0, 0⟩, scissor_dimensions := ⟨10, 10⟩ }).2
          ++ (State.enableScissorRegion ⟨0, 0⟩ ⟨10, 10⟩
              (State.enableScissorRegion ⟨0, 0⟩ ⟨10, 10⟩
                { scissor_origin := ⟨0, 0⟩, scissor_dimensions := ⟨10, 10⟩ }).1).2) = 1) := by
  decide

/-- C6 (amended): for non-negative dimensions, calling
EnableScissorRegion(origin, dimensions) twice in a row issues the backend
SetScissorRegion call at most once — exactly once unless the cached
scissor was already enabled with that origin and dimensions, in which
case zero times — the second call performs no backend calls at all, and
after both calls the cached scissor state is enabled with that origin and
dimensions. -/
theorem c6_enable_scissor_idempotent (s : State) (origin dimensions : Vector2i)
    (hx : 0 ≤ dimensions.x) (hy : 0 ≤ dimensions.y) :
    ((s.enableScissorRegion origin dimensions).1.enableScissorRegion origin dimensions).2 = [] ∧
    ((s.enableScissorRegion origin dimensions).1.enableScissorRegion origin dimensions).1
      = (s.enableScissorRegion origin dimensions).1 ∧
    (s.enableScissorRegion origin dimensions).1.scissor_origin = origin ∧
    (s.enableScissorRegion origin dimensions).1.scissor_dimensions = dimensions ∧
    List.countP isSetScissorRegion
        ((s.enableScissorRegion origin dimensions).2
          ++ ((s.enableScissorRegion origin dimensions).1.enableScissorRegion origin
              dimensions).2)
      = if 0 ≤ s.scissor_dimensions.x ∧ s.scissor_origin = origin ∧
            s.scissor_dimensions = dimensions then 0 else 1 := by
  have hsecond :
      (s.enableScissorRegion origin dimensions).1.enableScissorRegion origin dimensions
        = ((s.enableScissorRegion origin dimensions).1, []) := by
    rw [State.enableScissorRegion_fst]
    unfold State.enableScissorRegion
    simp [hx]
  refine ⟨by rw [hsecond], by rw [hsecond], ?_, ?_, ?_⟩
  · rw [State.enableScissorRegion_fst]
  · rw [State.enableScissorRegion_fst]
  · rw [hsecond]
    simp [State.enableScissorRegion_snd_countP]

/-- C6 witness: from the default State (scissor disabled), two identical
EnableScissorRegion calls leave the second call without backend calls and
issue one SetScissorRegion in total. -/
theorem c6_witness :
    ((({} : State).enableScissorRegion ⟨1, 2⟩ ⟨3, 4⟩).1.enableScissorRegion ⟨1, 2⟩ ⟨3, 4⟩).2 = []
      ∧ List.countP isSetScissorRegion
          ((({} : State).enableScissorRegion ⟨1, 2⟩ ⟨3, 4⟩).2
            ++ ((({} : State).enableScissorRegion ⟨1, 2⟩ ⟨3, 4⟩).1.enableScissorRegion ⟨1, 2⟩
                ⟨3, 4⟩).2) = 1 := by
  have h := c6_enable_scissor_idempotent {} ⟨1, 2⟩ ⟨3, 4⟩ (by decide) (by decide)
  refine ⟨h.1, ?_⟩
  rw [h.2.2.2.2]
  decide

/-! ### Claim theorems: Set reconciliation order -/

theorem State.disableScissorRegion_fst (s : State) :
    (s.disableScissorRegion.1.scissor_dimensions.x < 0) ∧
    s.disableScissorRegion.1.clip_stencil_elements = s.clip_stencil_elements ∧
    s.disableScissorRegion.1.scissor_origin = s.scissor_origin := by
  unfold State.disableScissorRegion
  split
  · refine ⟨?_, rfl, rfl⟩
    show (-1 : Int) < 0
    norm_num
  · next h =>
    refine ⟨?_, rfl, rfl⟩
    show s.scissor_dimensions.x < 0
    omega

theorem applyClipElements_fst_fields (env : Env) (chain : ElementClipList) :
    ∀ (first : Bool) (s : State),
      (applyClipElements env first chain s).1.scissor_origin = s.scissor_origin ∧
      (applyClipElements env first chain s).1.scissor_dimensions = s.scissor_dimensions ∧
      (applyClipElements env first chain s).1.clip_stencil_elements =
        s.clip_stencil_elements := by
  induction chain with
  | nil => intro first s; exact ⟨rfl, rfl, rfl⟩
  | cons c cs ih =>
    intro first s
    simp only [applyClipElements, State.applyTransform]
    exact ⟨((ih false _).1).trans (State.setTransform_fst_scissor_origin _ _ _),
      ((ih false _).2.1).trans (State.setTransform_fst_scissor_dimensions _ _ _),
      ((ih false _).2.2).trans (State.setTransform_fst_clip _ _ _)⟩

theorem applyClipMask_fst_fields (env : Env) (chain : ElementClipList) (s : State) :
    (applyClipMask env chain s).1.scissor_origin = s.scissor_origin ∧
    (applyClipMask env chain s).1.scissor_dimensions = s.scissor_dimensions ∧
    (applyClipMask env chain s).1.clip_stencil_elements = s.clip_stencil_elements := by
  cases chain with
  | nil => exact ⟨rfl, rfl, rfl⟩
  | cons c cs =>
    simp only [applyClipMask, List.isEmpty_cons, Bool.not_false, if_true]
    exact ⟨(State.setTransform_fst_scissor_origin _ _ _).trans
        (applyClipElements_fst_fields env (c :: cs) true s).1,
      (State.setTransform_fst_scissor_dimensions _ _ _).trans
        (applyClipElements_fst_fields env (c :: cs) true s).2.1,
      (State.setTransform_fst_clip _ _ _).trans
        (applyClipElements_fst_fields env (c :: cs) true s).2.2⟩

theorem State.setClipMask_fst_fields (env : Env) (chain : ElementClipList) (s : State) :
    (s.setClipMask env chain).1.clip_stencil_elements = chain ∧
    (s.setClipMask env chain).1.scissor_origin = s.scissor_origin ∧
    (s.setClipMask env chain).1.scissor_dimensions = s.scissor_dimensions := by
  unfold State.setClipMask
  by_cases h : s.clip_stencil_elements = chain
  · simp [h]
  · simp only [ne_eq, h, not_false_iff, if_pos, if_true]
    exact ⟨(applyClipMask_fst_fields env chain _).2.2,
      (applyClipMask_fst_fields env chain _).1,
      (applyClipMask_fst_fields env chain _).2.1⟩

/-- C8: Set reconciles toward the target State in the fixed order
scissor, then clip mask, then transform, each through its own mutator;
consequently the resulting top State carries the target's transform
pointer (not one left over from clip-mask geometry generation), the
target's clip chain, and the target's scissor rectangle (or a disabled
scissor when the target's dimensions are negative). -/
theorem c8_set_reconciles (env : Env) (next s : State) :
    (s.set env next =
      ((((if 0 ≤ next.scissor_dimensions.x then
            s.enableScissorRegion next.scissor_origin next.scissor_dimensions
          else s.disableScissorRegion).1.setClipMask env
            next.clip_stencil_elements).1.setTransform env next.transform_pointer).1,
        (if 0 ≤ next.scissor_dimensions.x then
            s.enableScissorRegion next.scissor_origin next.scissor_dimensions
          else s.disableScissorRegion).2
        ++ (((if 0 ≤ next.scissor_dimensions.x then
              s.enableScissorRegion next.scissor_origin next.scissor_dimensions
            else s.disableScissorRegion).1.setClipMask env next.clip_stencil_elements).2
          ++ ((((if 0 ≤ next.scissor_dimensions.x then
                s.enableScissorRegion next.scissor_origin next.scissor_dimensions
              else s.disableScissorRegion).1.setClipMask env
                next.clip_stencil_elements).1.setTransform env
                next.transform_pointer).2)))) ∧
    (s.set env next).1.transform_pointer = next.transform_pointer ∧
    (s.set env next).1.clip_stencil_elements = next.clip_stencil_elements ∧
    (if 0 ≤ next.scissor_dimensions.x then
        (s.set env next).1.scissor_origin = next.scissor_origin ∧
          (s.set env next).1.scissor_dimensions = next.scissor_dimensions
      else (s.set env next).1.scissor_dimensions.x < 0) := by
  refine ⟨rfl, ?_, ?_, ?_⟩
  · exact State.setTransform_fst_transform_pointer _ _ _
  · exact (State.setTransform_fst_clip _ _ _).trans
      (State.setClipMask_fst_fields env next.clip_stencil_elements _).1
  · by_cases hd : 0 ≤ next.scissor_dimensions.x
    · rw [if_pos hd]
      unfold State.set
      simp only [if_pos hd]
      constructor
      · rw [State.setTransform_fst_scissor_origin,
          (State.setClipMask_fst_fields env next.clip_stencil_elements _).2.1,
          State.enableScissorRegion_fst]
      · rw [State.setTransform_fst_scissor_dimensions,
          (State.setClipMask_fst_fields env next.clip_stencil_elements _).2.2,
          State.enableScissorRegion_fst]
    · rw [if_neg hd]
      unfold State.set
      simp only [if_neg hd]
      rw [State.setTransform_fst_scissor_dimensions,
        (State.setClipMask_fst_fields env next.clip_stencil_elements _).2.2]
      exact (State.disableScissorRegion_fst s).1

/-! ### Claim theorems: the capability flag -/

theorem applyClipElements_cap (el : Element → ElementData) (hp : Ptr → Matrix4f) (b b2 : Bool)
    (chain : ElementClipList) :
    ∀ (first : Bool) (s : State),
      applyClipElements ⟨el, hp, b⟩ first chain s =
        applyClipElements ⟨el, hp, b2⟩ first chain s := by
  induction chain with
  | nil => intro first s; rfl
  | cons c cs ih =>
    intro first s
    simp only [applyClipElements]
    rw [show State.applyTransform ⟨el, hp, b⟩ (some c.element) s =
        State.applyTransform ⟨el, hp, b2⟩ (some c.element) s from rfl]
    rw [ih false]

theorem applyClipMask_cap (el : Element → ElementData) (hp : Ptr → Matrix4f) (b b2 : Bool)
    (chain : ElementClipList) (s : State) :
    applyClipMask ⟨el, hp, b⟩ chain s = applyClipMask ⟨el, hp, b2⟩ chain s := by
  cases chain with
  | nil => rfl
  | cons c cs =>
    simp only [applyClipMask, List.isEmpty_cons, Bool.not_false, if_true]
    rw [applyClipElements_cap el hp b b2]
    rfl

/-- C10: the clip-mask application algorithm always begins with a
backend EnableClipMask call reflecting only whether the chain is
non-empty, its result is independent of the capability flag the backend
returns (the flag is discarded there), and the flag is stored in
supports_stencil only by BeginRender. -/
theorem c10_enable_clip_mask_unconditional (env : Env) (chain : ElementClipList) (s : State)
    (rs : RenderState) (el : Element → ElementData) (hp : Ptr → Matrix4f) (b b2 : Bool) :
    ((applyClipMask env chain s).2).head? = some (BackendCall.enableClipMask (!chain.isEmpty)) ∧
    applyClipMask ⟨el, hp, b⟩ chain s = applyClipMask ⟨el, hp, b2⟩ chain s ∧
    (rs.beginRender env).1.supports_stencil = env.clip_mask_capability := by
  refine ⟨?_, applyClipMask_cap el hp b b2 chain s, rfl⟩
  cases chain with
  | nil => rfl
  | cons c cs => simp [applyClipMask]

end RmlUi
